import Mathlib

/-!
Shallow embedding of the rascam camera library core (src/src/lib.rs).

The embedding models the buffer-lifecycle and capture-session logic of the
library: the buffer-guard destructor, the driver buffer callback, the
userdata attach/detach protocol, the take/take_async rollback paths, the
stop_capturing state machine, the SeriousCamera teardown (Drop), the
channel capacities chosen by do_take, and the elementary-stream geometry
committed by set_camera_format / set_video_camera_format.

Native driver calls and channel operations are recorded as an explicit
trace of `NativeCall` values; mutable state touched by the embedded code
(port userdata, pool queue, the capture mutex, the capturing flag) is
passed explicitly.
-/

namespace Rascam

/-! ## Driver flag constants (values re-exported from mmal-sys) -/

/-- Bit flag set by the driver on the buffer that ends a frame. -/
def MMAL_BUFFER_HEADER_FLAG_FRAME_END : Nat := 4

/-- Bit flag set by the driver on an unrecoverable transmission failure. -/
def MMAL_BUFFER_HEADER_FLAG_TRANSMISSION_FAILED : Nat := 1024

/-- Camera output port index for video (lib.rs line 38). -/
def MMAL_CAMERA_VIDEO_PORT : Nat := 1

/-- Camera output port index for still capture (lib.rs line 39). -/
def MMAL_CAMERA_CAPTURE_PORT : Nat := 2

/-! ## Buffers, guards and the frame-end test -/

/-- Buffer header as seen by the buffer callback: an identity for the native
header, the payload length and the driver flag bits. -/
structure BufferHeader where
  id : Nat
  length : Nat
  flags : Nat
deriving DecidableEq, Repr

/-- Frame-end test performed by camera_buffer_callback (lib.rs 1309-1315):
the buffer flags are masked with FRAME_END and TRANSMISSION_FAILED merged
into one mask, and frame_end is set when the masked value is positive. -/
def frame_end_of_flags (flags : Nat) : Bool :=
  decide (flags &&&
    (MMAL_BUFFER_HEADER_FLAG_FRAME_END |||
      MMAL_BUFFER_HEADER_FLAG_TRANSMISSION_FAILED) > 0)

/-- Guard around one delivered buffer header (lib.rs 84-105): the
originating port, the buffer, the pool handle and the frame_end bit
computed by the callback. -/
structure BufferGuard where
  port : Nat
  buffer : Nat
  pool : Nat
  frame_end : Bool
deriving DecidableEq, Repr

/-- Constructor BufferGuard::new (lib.rs 93-105). -/
def BufferGuard.new (port buffer pool : Nat) (frame_end : Bool) : BufferGuard :=
  ⟨port, buffer, pool, frame_end⟩

/-- Accessor BufferGuard::is_frame_end (lib.rs 107-110): returns the stored
frame_end bit. -/
def BufferGuard.is_frame_end (g : BufferGuard) : Bool :=
  g.frame_end

/-! ## Trace of native driver and channel operations -/

/-- Observable operations performed by the embedded code, in program order. -/
inductive NativeCall where
  /-- mmal_buffer_header_mem_lock -/
  | memLock (buffer : Nat)
  /-- mmal_buffer_header_mem_unlock -/
  | memUnlock (buffer : Nat)
  /-- mmal_buffer_header_release: return the header to its pool -/
  | releaseBuffer (buffer : Nat)
  /-- a BufferGuard message sent on the delivery channel -/
  | sendGuard (g : BufferGuard)
  /-- the explicit end-of-stream marker None sent on the sync channel -/
  | sendNone
  /-- close_channel on the async channel -/
  | closeChannel
  /-- mmal_port_send_buffer: requeue a fresh buffer to a port -/
  | portSendBuffer (port buffer : Nat)
  /-- drop_port_userdata: detach and free the per-port context -/
  | detachUserdata (port : Nat)
  /-- mmal_port_parameter_set_boolean(port, MMAL_PARAMETER_CAPTURE, 0) -/
  | setCaptureOff (portIndex : Nat)
  /-- mmal_port_disable on the encoder output port -/
  | disableEncoderOutputPort
  /-- mmal_port_disable on the camera video port -/
  | disableCameraVideoPort
  /-- mmal_port_disable on the camera still capture port -/
  | disableCameraCapturePort
  /-- mmal_port_disable on the camera control port -/
  | disableCameraControlPort
  /-- mmal_port_disable on the encoder control port -/
  | disableEncoderControlPort
  /-- mmal_connection_disable -/
  | connectionDisable
  /-- mmal_connection_destroy -/
  | connectionDestroy
  /-- mmal_component_disable on the encoder component -/
  | encoderComponentDisable
  /-- mmal_component_disable on the camera component -/
  | cameraComponentDisable
  /-- mmal_component_destroy on the camera component -/
  | cameraComponentDestroy
  /-- mmal_component_destroy on the encoder component -/
  | encoderComponentDestroy
deriving DecidableEq, Repr

/-- True when the trace contains a requeue (mmal_port_send_buffer). -/
def resubmitsBuffer (calls : List NativeCall) : Bool :=
  calls.any fun c =>
    match c with
    | NativeCall.portSendBuffer _ _ => true
    | _ => false

/-! ## The shared get-new-buffer-and-requeue fragment

Both the BufferGuard destructor (lib.rs 137-156) and the zero-length branch
of camera_buffer_callback (lib.rs 1358-1372) contain the same fragment: if
the port is still enabled, get a buffer from the pool queue
(mmal_queue_get) and, when that returned a non-null buffer, send it to the
port; a null buffer or a failed send is only logged. -/

/-- Requeue fragment: returns the recorded calls and the remaining pool
queue. A disabled port or an empty queue requeues nothing. -/
def getNewBufferAndSend (port : Nat) (is_enabled : Bool) (queue : List Nat) :
    List NativeCall × List Nat :=
  if is_enabled then
    match queue with
    | [] => ([], [])
    | b :: rest => ([NativeCall.portSendBuffer port b], rest)
  else
    ([], queue)

/-! ## BufferGuard destructor -/

/-- State the BufferGuard destructor touches: the enabled bit of the
originating port and the free queue of the pool. -/
structure GuardDropEnv where
  is_enabled : Bool
  poolQueue : List Nat
deriving DecidableEq, Repr

/-- Drop for BufferGuard (lib.rs 127-159): unlock the buffer memory,
release the header back to the pool, then, when the port is still enabled,
get a new buffer from the pool queue and send it to the port. -/
def bufferGuardDrop (g : BufferGuard) (s : GuardDropEnv) :
    GuardDropEnv × List NativeCall :=
  let req := getNewBufferAndSend g.port s.is_enabled s.poolQueue
  ({ is_enabled := s.is_enabled, poolQueue := req.2 },
    [NativeCall.memUnlock g.buffer, NativeCall.releaseBuffer g.buffer] ++ req.1)

/-! ## Userdata and the buffer callback -/

/-- Which kind of delivery channel the session uses (lib.rs 71-74). -/
inductive SenderKind where
  | SyncSender
  | AsyncSender
deriving DecidableEq, Repr

/-- Per-port context attached by set_buffer_callback (lib.rs 65-69): the
pool handle and the sending half of the delivery channel. The _guard field
holding the capture mutex is modelled by the mutexLocked bit of the state
it force-unlocks. -/
structure Userdata where
  pool : Nat
  sender : SenderKind
deriving DecidableEq, Repr

/-- State seen by camera_buffer_callback through its port argument: the
port identity, its enabled bit, its attached userdata, the pool free queue
and the capture mutex owned by the device. -/
structure CallbackState where
  portId : Nat
  is_enabled : Bool
  userdata : Option Userdata
  poolQueue : List Nat
  mutexLocked : Bool
deriving DecidableEq, Repr

/-- drop_port_userdata (lib.rs 1671-1678): free the boxed Userdata,
force-unlock the capture mutex held through it, and null the port userdata
pointer. -/
def drop_port_userdata (s : CallbackState) : CallbackState :=
  { s with userdata := none, mutexLocked := false }

/-- camera_buffer_callback (lib.rs 1278-1381). With attached userdata and a
positive payload length it locks the buffer memory and sends one
BufferGuard on the channel; with a zero payload length it releases the
buffer, ends the channel (close for async, a None message for sync),
detaches the userdata, and requeues a fresh buffer when the port is still
enabled; with null userdata it only releases the buffer. -/
def camera_buffer_callback (s : CallbackState) (buffer : BufferHeader) :
    CallbackState × List NativeCall :=
  let bytes_to_write := buffer.length
  match s.userdata with
  | some userdata =>
      let frame_end := frame_end_of_flags buffer.flags
      if bytes_to_write > 0 then
        (s, [NativeCall.memLock buffer.id,
          NativeCall.sendGuard
            (BufferGuard.new s.portId buffer.id userdata.pool frame_end)])
      else
        let endCall :=
          match userdata.sender with
          | SenderKind.AsyncSender => NativeCall.closeChannel
          | SenderKind.SyncSender => NativeCall.sendNone
        let s1 := drop_port_userdata s
        let req := getNewBufferAndSend s.portId s1.is_enabled s1.poolQueue
        ({ s1 with poolQueue := req.2 },
          [NativeCall.releaseBuffer buffer.id, endCall,
            NativeCall.detachUserdata s.portId] ++ req.1)
  | none => (s, [NativeCall.releaseBuffer buffer.id])

/-- Device-level view of one callback invocation: the native callback
receives only the port and the buffer, so the is_capturing field of
SeriousCamera is not accessible to it and is carried through unchanged. -/
structure DeviceState where
  is_capturing : Bool
  cb : CallbackState
deriving DecidableEq, Repr

/-- One buffer-callback delivery observed at device level. -/
def deviceBufferCallback (d : DeviceState) (buffer : BufferHeader) :
    DeviceState × List NativeCall :=
  let r := camera_buffer_callback d.cb buffer
  ({ d with cb := r.1 }, r.2)

/-! ## stop_capturing -/

/-- State read and written by stop_capturing. -/
structure StopState where
  is_capturing : Bool
  is_video : Bool
deriving DecidableEq, Repr

/-- SeriousCamera::stop_capturing (lib.rs 1251-1274): a no-op when not
capturing; otherwise issue the stop-capture parameter to the active camera
port (video port when is_video, else the still capture port) and clear
is_capturing. The function returns no result and has no error path. -/
def stop_capturing (s : StopState) : StopState × List NativeCall :=
  if !s.is_capturing then
    (s, [])
  else
    let offset :=
      if s.is_video then MMAL_CAMERA_VIDEO_PORT else MMAL_CAMERA_CAPTURE_PORT
    ({ s with is_capturing := false }, [NativeCall.setCaptureOff offset])

/-! ## do_take, take and take_async -/

/-- Outcomes of the fallible native calls made during do_take: the shutter
speed parameter (lib.rs 1102-1114), send_buffers (1159) and the
capture-start parameter (1161-1184). -/
structure TakeEnv where
  shutterOk : Bool
  sendBuffersOk : Bool
  startCaptureOk : Bool
deriving DecidableEq, Repr

/-- Camera state threaded through take / take_async: the capture mutex,
whether a Userdata context is attached to the active port, and the
is_capturing flag. -/
structure TakeState where
  mutexLocked : Bool
  userdataAttached : Bool
  is_capturing : Bool
deriving DecidableEq, Repr

/-- Error cases of do_take. -/
inductive TakeError where
  | shutterFailed
  | sendBuffersFailed
  | startCaptureFailed
deriving DecidableEq, Repr

/-- Result of do_take: the error if any, the state after the call, and
whether the out-parameter buffer_port_ptr was set (it is set after the
shutter step, before the channel is created). -/
structure DoTakeResult where
  outcome : Option TakeError
  state : TakeState
  bufferPortSet : Bool
deriving DecidableEq, Repr

/-- SeriousCamera::do_take (lib.rs 1096-1186). A shutter failure returns
before buffer_port_ptr is set; afterwards the port is selected,
buffer_port_ptr is set, the channel is created and set_buffer_callback
attaches the Userdata; a send_buffers failure or a capture-start failure
then returns with the Userdata still attached; on success is_capturing is
set. -/
def do_take (env : TakeEnv) (s : TakeState) : DoTakeResult :=
  if !env.shutterOk then
    { outcome := some TakeError.shutterFailed, state := s, bufferPortSet := false }
  else
    let s1 := { s with userdataAttached := true }
    if !env.sendBuffersOk then
      { outcome := some TakeError.sendBuffersFailed, state := s1, bufferPortSet := true }
    else if !env.startCaptureOk then
      { outcome := some TakeError.startCaptureFailed, state := s1, bufferPortSet := true }
    else
      { outcome := none, state := { s1 with is_capturing := true }, bufferPortSet := true }

/-- SeriousCamera::take (lib.rs 1188-1214): lock the capture mutex, run
do_take, and on error detach the port userdata when buffer_port_ptr is
non-null and its userdata is non-null, then force-unlock the mutex before
returning the error. -/
def take (env : TakeEnv) (s : TakeState) : Option TakeError × TakeState :=
  let s0 := { s with mutexLocked := true }
  let r := do_take env s0
  match r.outcome with
  | none => (none, r.state)
  | some e =>
      let s1 :=
        if r.bufferPortSet && r.state.userdataAttached then
          { r.state with userdataAttached := false, mutexLocked := false }
        else
          r.state
      (some e, { s1 with mutexLocked := false })

/-- Result of take_async: success, an error return, or the undefined
behaviour reached when the error path dereferences the null
buffer_port_ptr. -/
inductive TakeAsyncResult where
  | ok (state : TakeState)
  | err (e : TakeError) (state : TakeState)
  | nullDeref
deriving DecidableEq, Repr

/-- SeriousCamera::take_async (lib.rs 1216-1244): lock the capture mutex
and run do_take as take does, but the error path tests
buffer_port_ptr.is_null() && (*buffer_port_ptr).userdata.is_null(): when
buffer_port_ptr was set the first conjunct is false and drop_port_userdata
is never called, so only the mutex force-unlock runs; when buffer_port_ptr
is still null the second conjunct dereferences the null pointer. -/
def take_async (env : TakeEnv) (s : TakeState) : TakeAsyncResult :=
  let s0 := { s with mutexLocked := true }
  let r := do_take env s0
  match r.outcome with
  | none => TakeAsyncResult.ok r.state
  | some e =>
      if r.bufferPortSet then
        TakeAsyncResult.err e { r.state with mutexLocked := false }
      else
        TakeAsyncResult.nullDeref

/-! ## Delivery channel capacity -/

/-- Channel constructor chosen by do_take (lib.rs 1142-1154): the async
mode calls futures channel mpsc with buffer 0, the sync mode calls std
sync_channel with bound 0. -/
inductive ChannelSpec where
  | asyncChannel (buffer : Nat)
  | syncChannel (bound : Nat)
deriving DecidableEq, Repr

/-- The channel do_take creates for each consumption mode. -/
def do_take_channel (is_async : Bool) : ChannelSpec :=
  if is_async then ChannelSpec.asyncChannel 0 else ChannelSpec.syncChannel 0

/-- Slots of a channel: how many sent-but-unconsumed messages it admits.
Modelled from the documented semantics of the two channel libraries with
the single sender do_take hands to the callback: a futures mpsc channel
created with a buffer admits buffer-plus-one messages (one slot per
sender), after which try_send fails; a std sync_channel with bound 0 is a
rendezvous channel whose send completes only together with the matching
receive, so one message at most is in flight. -/
def channelSlots : ChannelSpec → Nat
  | ChannelSpec.asyncChannel buffer => buffer + 1
  | ChannelSpec.syncChannel bound => bound + 1

/-- Channel events: a producer send and a consumer receive. -/
inductive ChanEvent where
  | send
  | recv
deriving DecidableEq, Repr

/-- One channel step over the count of outstanding messages: a send needs a
free slot (try_send fails, a blocking send waits, when none is free), a
receive needs an outstanding message. -/
def chanStep (slots outstanding : Nat) : ChanEvent → Option Nat
  | ChanEvent.send => if outstanding < slots then some (outstanding + 1) else none
  | ChanEvent.recv =>
      match outstanding with
      | 0 => none
      | n + 1 => some n

/-- Run a sequence of completed channel events from an empty channel. -/
def chanRun (slots : Nat) (events : List ChanEvent) : Option Nat :=
  events.foldl (fun acc e => acc.bind fun o => chanStep slots o e) (some 0)

/-! ## SeriousCamera teardown (Drop) -/

/-- Fields of SeriousCamera (lib.rs 163-187) read by its Drop. The encoder
and connection handles are optional; a None handle unwrapped during
teardown is the failure the teardown-safety claim is about. -/
structure SeriousCameraState where
  enabled : Bool
  camera_port_enabled : Bool
  still_port_enabled : Bool
  encoder : Option Unit
  encoder_created : Bool
  encoder_enabled : Bool
  encoder_control_port_enabled : Bool
  encoder_output_port_enabled : Bool
  connection : Option Unit
  connection_created : Bool
  use_encoder : Bool
  is_capturing : Bool
  is_video : Bool
deriving DecidableEq, Repr

/-- Guarded unwrap: when the flag is set the handle is unwrapped (None
makes the whole teardown undefined, modelled as Option failure) and the
calls are recorded; when the flag is clear nothing happens. -/
def unwrapGuarded (flag : Bool) (handle : Option Unit) (calls : List NativeCall) :
    Option (List NativeCall) :=
  if flag then handle.map fun _ => calls else some []

/-- Drop for SeriousCamera (lib.rs 1435-1497), in source order:
stop_capturing; disable the encoder output port if enabled; when the
camera was capturing without an encoder, disable the camera video or
still data port; disable the camera control port if enabled; disable the
encoder control port if enabled; disable and destroy the connection if
created; disable the encoder component if enabled; disable the camera
component if enabled; destroy the camera component unconditionally;
destroy the encoder component if created. Every encoder or connection
access unwraps the optional handle. -/
def seriousCameraDrop (s : SeriousCameraState) : Option (List NativeCall) := do
  let was_capturing := s.is_capturing
  let stop := stop_capturing { is_capturing := s.is_capturing, is_video := s.is_video }
  let encOut ← unwrapGuarded s.encoder_output_port_enabled s.encoder
    [NativeCall.disableEncoderOutputPort]
  let camData :=
    if was_capturing && !s.use_encoder then
      if s.is_video then
        [NativeCall.disableCameraVideoPort]
      else
        [NativeCall.disableCameraCapturePort]
    else []
  let camCtrl := if s.camera_port_enabled then [NativeCall.disableCameraControlPort] else []
  let encCtrl ← unwrapGuarded s.encoder_control_port_enabled s.encoder
    [NativeCall.disableEncoderControlPort]
  let conn ← unwrapGuarded s.connection_created s.connection
    [NativeCall.connectionDisable, NativeCall.connectionDestroy]
  let encDis ← unwrapGuarded s.encoder_enabled s.encoder
    [NativeCall.encoderComponentDisable]
  let camDis := if s.enabled then [NativeCall.cameraComponentDisable] else []
  let encDestroy ← unwrapGuarded s.encoder_created s.encoder
    [NativeCall.encoderComponentDestroy]
  pure (stop.2 ++ encOut ++ camData ++ camCtrl ++ encCtrl ++ conn ++ encDis ++
    camDis ++ [NativeCall.cameraComponentDestroy] ++ encDestroy)

/-! ## Elementary-stream geometry -/

/-- Geometry fields of CameraSettings (src/src/settings.rs 134-171). Only
the fields the embedded format functions read are carried. -/
structure CameraSettings where
  width : Nat
  height : Nat
deriving DecidableEq, Repr

/-- vcos_align_up from the native VCOS layer re-exported by mmal-sys,
modelled from its documented behaviour: round value up to the next
multiple of round_to, a power of two. -/
def vcos_align_up (value round_to : Nat) : Nat :=
  ((value + round_to - 1) / round_to) * round_to

/-- Elementary-stream video geometry committed to a port: the padded
buffer geometry and the crop rectangle. -/
structure EsVideoFormat where
  width : Nat
  height : Nat
  crop_width : Nat
  crop_height : Nat
deriving DecidableEq, Repr

/-- Geometry written to the still port elementary stream by
SeriousCamera::set_camera_format (lib.rs 784-793): width aligned up to 32,
height aligned up to 16, crop exactly the requested dimensions. -/
def set_camera_format_still_es (s : CameraSettings) : EsVideoFormat :=
  { width := vcos_align_up s.width 32
    height := vcos_align_up s.height 16
    crop_width := s.width
    crop_height := s.height }

/-- Geometry written to the preview, video and still port elementary
streams by SeriousCamera::set_video_camera_format (lib.rs 475-483,
504-513, 533-542): the same alignment and crop as the still path. -/
def set_video_camera_format_es (s : CameraSettings) : EsVideoFormat :=
  { width := vcos_align_up s.width 32
    height := vcos_align_up s.height 16
    crop_width := s.width
    crop_height := s.height }

/-! ## Supporting lemmas -/

/-- Bitwise and distributes over bitwise or on Nat. -/
theorem land_lor_distrib_left (x a b : Nat) :
    x &&& (a ||| b) = (x &&& a) ||| (x &&& b) :=
  Nat.eq_of_testBit_eq fun i => by
    simp [Nat.testBit_and, Nat.testBit_or, Bool.and_or_distrib_left]

/-- Bitwise or is zero exactly when both arguments are zero. -/
theorem lor_eq_zero_iff (x y : Nat) : x ||| y = 0 ↔ x = 0 ∧ y = 0 := by
  constructor
  · intro h
    constructor
    · refine Nat.eq_of_testBit_eq fun i => ?_
      have hb := congrArg (fun n => Nat.testBit n i) h
      simp [Nat.testBit_or] at hb
      simp [hb.1]
    · refine Nat.eq_of_testBit_eq fun i => ?_
      have hb := congrArg (fun n => Nat.testBit n i) h
      simp [Nat.testBit_or] at hb
      simp [hb.2]
  · rintro ⟨rfl, rfl⟩
    rfl

/-- Alignment to 32: the aligned value is the least multiple of 32 at or
above the input. -/
theorem vcos_align_up_32 (v : Nat) :
    vcos_align_up v 32 % 32 = 0 ∧ v ≤ vcos_align_up v 32 ∧
      vcos_align_up v 32 < v + 32 := by
  unfold vcos_align_up
  have h := Nat.div_add_mod (v + 31) 32
  have h2 : (v + 31) % 32 < 32 := Nat.mod_lt _ (by decide)
  refine ⟨Nat.mul_mod_left _ _, ?_, ?_⟩ <;> omega

/-- Alignment to 16: the aligned value is the least multiple of 16 at or
above the input. -/
theorem vcos_align_up_16 (v : Nat) :
    vcos_align_up v 16 % 16 = 0 ∧ v ≤ vcos_align_up v 16 ∧
      vcos_align_up v 16 < v + 16 := by
  unfold vcos_align_up
  have h := Nat.div_add_mod (v + 15) 16
  have h2 : (v + 15) % 16 < 16 := Nat.mod_lt _ (by decide)
  refine ⟨Nat.mul_mod_left _ _, ?_, ?_⟩ <;> omega

/-- Guarded unwrap with a present handle always succeeds. -/
theorem unwrapGuarded_some (b : Bool) (u : Unit) (l : List NativeCall) :
    unwrapGuarded b (some u) l = some (if b then l else []) := by
  cases b <;> rfl

/-- Guarded unwrap with a clear flag never touches the handle. -/
theorem unwrapGuarded_false (h : Option Unit) (l : List NativeCall) :
    unwrapGuarded false h l = some [] := rfl

/-- A channel step keeps the outstanding count within the slot bound. -/
theorem chanStep_le (slots o0 o1 : Nat) (e : ChanEvent)
    (h0 : o0 ≤ slots) (h : chanStep slots o0 e = some o1) : o1 ≤ slots := by
  cases e with
  | send =>
      unfold chanStep at h
      by_cases hlt : o0 < slots
      · rw [if_pos hlt] at h
        injection h with h
        omega
      · rw [if_neg hlt] at h
        cases h
  | recv =>
      unfold chanStep at h
      cases o0 with
      | zero => cases h
      | succ n =>
          injection h with h
          omega

/-- Folding channel steps from a dead accumulator stays dead. -/
theorem chanFold_none (slots : Nat) (events : List ChanEvent) :
    events.foldl (fun acc e => acc.bind fun o => chanStep slots o e) none = none := by
  induction events with
  | nil => rfl
  | cons e rest ih => simpa using ih

/-- The outstanding count of a completed run never exceeds the slot
bound. -/
theorem chanFold_le (slots : Nat) (events : List ChanEvent) :
    ∀ o0 o : Nat, o0 ≤ slots →
      events.foldl (fun acc e => acc.bind fun o => chanStep slots o e) (some o0) = some o →
      o ≤ slots := by
  induction events with
  | nil =>
      intro o0 o h0 h
      simp at h
      omega
  | cons e rest ih =>
      intro o0 o h0 h
      simp only [List.foldl] at h
      have hred : ((some o0).bind fun o => chanStep slots o e) = chanStep slots o0 e := rfl
      rw [hred] at h
      cases hstep : chanStep slots o0 e with
      | none =>
          rw [hstep, chanFold_none] at h
          cases h
      | some o1 =>
          rw [hstep] at h
          exact ih o1 o (chanStep_le slots o0 o1 e h0 hstep) h

/-! ## Claim theorems -/

/-- C1 (code bug witness): take_async evaluated where do_take fails at the
send_buffers step, after set_buffer_callback attached the port userdata.
The inverted rollback condition skips drop_port_userdata, so the error
returns with the userdata still attached, while take at the same input
detaches it and unlocks the mutex as specified. -/
theorem take_async_error_keeps_userdata_attached :
    take_async ⟨true, false, true⟩ ⟨false, false, false⟩ =
      TakeAsyncResult.err TakeError.sendBuffersFailed
        { mutexLocked := false, userdataAttached := true, is_capturing := false }
    ∧ take ⟨true, false, true⟩ ⟨false, false, false⟩ =
      (some TakeError.sendBuffersFailed,
        { mutexLocked := false, userdataAttached := false, is_capturing := false }) := by
  decide

/-- C2 (counterexample): with the originating port enabled but the pool
queue empty, the guard drop resubmits nothing even though is_enabled is
set, refuting the claimed if-and-only-if between resubmission and the
enabled flag. -/
theorem bufferGuardDrop_enabled_empty_queue_no_resubmit :
    (⟨true, []⟩ : GuardDropEnv).is_enabled = true
    ∧ resubmitsBuffer (bufferGuardDrop (BufferGuard.new 1 5 0 false) ⟨true, []⟩).2 = false := by
  decide

/-- C2 (amended): dropping a BufferGuard always begins by unlocking the
buffer memory and releasing the buffer to its pool; a fresh buffer is
pulled and resubmitted to the originating port exactly when the port is
enabled and the pool queue is nonempty; when the port is disabled no
resubmission is attempted and the drop completes with the state
unchanged. -/
theorem bufferGuardDrop_spec (g : BufferGuard) (s : GuardDropEnv) :
    (bufferGuardDrop g s).2.take 2 =
      [NativeCall.memUnlock g.buffer, NativeCall.releaseBuffer g.buffer]
    ∧ resubmitsBuffer (bufferGuardDrop g s).2 = (s.is_enabled && !s.poolQueue.isEmpty)
    ∧ (s.is_enabled = false →
        (bufferGuardDrop g s).2 =
          [NativeCall.memUnlock g.buffer, NativeCall.releaseBuffer g.buffer]
        ∧ (bufferGuardDrop g s).1 = s) := by
  rcases s with ⟨e, q⟩
  cases e <;> cases q <;>
    simp [bufferGuardDrop, getNewBufferAndSend, resubmitsBuffer]

/-- C3: with attached userdata, a delivery with positive payload locks the
buffer memory and sends exactly one channel message, a BufferGuard over
that buffer, with no release and no detach; a zero-length delivery
releases the buffer, ends the channel (close for the async sender, an
explicit None for the sync sender), detaches the port userdata, and then
only requeues a fresh buffer when the port is still enabled. -/
theorem camera_buffer_callback_spec (s : CallbackState) (buffer : BufferHeader)
    (u : Userdata) (hu : s.userdata = some u) :
    (buffer.length > 0 →
      camera_buffer_callback s buffer =
        (s, [NativeCall.memLock buffer.id,
          NativeCall.sendGuard
            (BufferGuard.new s.portId buffer.id u.pool (frame_end_of_flags buffer.flags))]))
    ∧ (buffer.length = 0 →
        camera_buffer_callback s buffer =
          ({ s with
              userdata := none
              mutexLocked := false
              poolQueue := (getNewBufferAndSend s.portId s.is_enabled s.poolQueue).2 },
            [NativeCall.releaseBuffer buffer.id,
              (match u.sender with
                | SenderKind.AsyncSender => NativeCall.closeChannel
                | SenderKind.SyncSender => NativeCall.sendNone),
              NativeCall.detachUserdata s.portId] ++
              (getNewBufferAndSend s.portId s.is_enabled s.poolQueue).1)) := by
  constructor
  · intro hpos
    unfold camera_buffer_callback
    rw [hu]
    simp [hpos, Nat.pos_iff_ne_zero.mp hpos]
  · intro hzero
    unfold camera_buffer_callback drop_port_userdata
    rw [hu]
    simp [hzero]

/-- Witness for C3: the zero-length sync case at a concrete state. -/
theorem camera_buffer_callback_spec_witness :
    camera_buffer_callback ⟨2, false, some ⟨3, SenderKind.SyncSender⟩, [], true⟩ ⟨9, 0, 4⟩ =
      (⟨2, false, none, [], false⟩,
        [NativeCall.releaseBuffer 9, NativeCall.sendNone, NativeCall.detachUserdata 2]) :=
  (camera_buffer_callback_spec ⟨2, false, some ⟨3, SenderKind.SyncSender⟩, [], true⟩
    ⟨9, 0, 4⟩ ⟨3, SenderKind.SyncSender⟩ rfl).2 rfl

/-- C4 (counterexample): after the terminal zero-length delivery the
capture mutex is unlocked, but the is_capturing flag of the device is
still true, refuting the claim that it is false at that point. -/
theorem terminal_delivery_leaves_is_capturing :
    ((deviceBufferCallback
        ⟨true, ⟨2, true, some ⟨7, SenderKind.SyncSender⟩, [], true⟩⟩
        ⟨5, 0, 4⟩).1.cb.mutexLocked = false)
    ∧ ((deviceBufferCallback
        ⟨true, ⟨2, true, some ⟨7, SenderKind.SyncSender⟩, [], true⟩⟩
        ⟨5, 0, 4⟩).1.is_capturing = true) := by
  decide

/-- C4 (amended): after camera_buffer_callback processes the terminal
zero-length delivery, the capture mutex is unlocked and the userdata is
detached via drop_port_userdata, but the is_capturing flag is not
accessible to the callback and is left unchanged; it is cleared only by
stop_capturing. -/
theorem terminal_delivery_unlocks_mutex (d : DeviceState) (buffer : BufferHeader)
    (u : Userdata) (hu : d.cb.userdata = some u) (hzero : buffer.length = 0) :
    (deviceBufferCallback d buffer).1.cb.mutexLocked = false
    ∧ (deviceBufferCallback d buffer).1.cb.userdata = none
    ∧ (deviceBufferCallback d buffer).1.is_capturing = d.is_capturing := by
  unfold deviceBufferCallback camera_buffer_callback drop_port_userdata
  rw [hu]
  simp [hzero]

/-- Witness for C4 (amended) at a concrete async-session state. -/
theorem terminal_delivery_unlocks_mutex_witness :
    (deviceBufferCallback ⟨true, ⟨2, true, some ⟨3, SenderKind.AsyncSender⟩, [8], true⟩⟩
        ⟨6, 0, 0⟩).1.cb.mutexLocked = false
    ∧ (deviceBufferCallback ⟨true, ⟨2, true, some ⟨3, SenderKind.AsyncSender⟩, [8], true⟩⟩
        ⟨6, 0, 0⟩).1.cb.userdata = none
    ∧ (deviceBufferCallback ⟨true, ⟨2, true, some ⟨3, SenderKind.AsyncSender⟩, [8], true⟩⟩
        ⟨6, 0, 0⟩).1.is_capturing = true :=
  terminal_delivery_unlocks_mutex
    ⟨true, ⟨2, true, some ⟨3, SenderKind.AsyncSender⟩, [8], true⟩⟩
    ⟨6, 0, 0⟩ ⟨3, SenderKind.AsyncSender⟩ rfl rfl

/-- C5: do_take creates the blocking channel as sync_channel(0) and the
async channel as channel(0); with the single sender a capacity-0 channel
has one slot, so a completed run of sends and receives never has more
than one outstanding message, and a send attempted while one message is
outstanding does not complete (try_send fails, the sync send blocks). -/
theorem do_take_channel_spec :
    do_take_channel false = ChannelSpec.syncChannel 0
    ∧ do_take_channel true = ChannelSpec.asyncChannel 0
    ∧ channelSlots (do_take_channel false) = 1
    ∧ channelSlots (do_take_channel true) = 1
    ∧ (∀ is_async : Bool, ∀ events : List ChanEvent, ∀ o : Nat,
        chanRun (channelSlots (do_take_channel is_async)) events = some o → o ≤ 1)
    ∧ (∀ is_async : Bool,
        chanStep (channelSlots (do_take_channel is_async)) 1 ChanEvent.send = none) := by
  refine ⟨rfl, rfl, rfl, rfl, ?_, ?_⟩
  · intro is_async events o h
    have hs : channelSlots (do_take_channel is_async) = 1 := by
      cases is_async <;> rfl
    rw [hs] at h
    exact chanFold_le 1 events 0 o (by omega) h
  · intro is_async
    cases is_async <;> rfl

/-- C6: the still-port elementary stream committed by set_camera_format
(and the geometry committed by set_video_camera_format) pads the buffer
width up to the next multiple of 32 and the height up to the next
multiple of 16, while the crop rectangle keeps exactly the requested
dimensions; at width 100 and height 100 the buffer geometry is 128 by 112
with the crop exactly 100 by 100. -/
theorem set_camera_format_geometry (s : CameraSettings) :
    (set_camera_format_still_es s).width % 32 = 0
    ∧ s.width ≤ (set_camera_format_still_es s).width
    ∧ (set_camera_format_still_es s).width < s.width + 32
    ∧ (set_camera_format_still_es s).height % 16 = 0
    ∧ s.height ≤ (set_camera_format_still_es s).height
    ∧ (set_camera_format_still_es s).height < s.height + 16
    ∧ (set_camera_format_still_es s).crop_width = s.width
    ∧ (set_camera_format_still_es s).crop_height = s.height
    ∧ set_video_camera_format_es s = set_camera_format_still_es s
    ∧ set_camera_format_still_es ⟨100, 100⟩ =
        { width := 128, height := 112, crop_width := 100, crop_height := 100 } := by
  obtain ⟨hw1, hw2, hw3⟩ := vcos_align_up_32 s.width
  obtain ⟨hh1, hh2, hh3⟩ := vcos_align_up_16 s.height
  exact ⟨hw1, hw2, hw3, hh1, hh2, hh3, rfl, rfl, rfl, by decide⟩

/-- C7: the frame-end bit computed by camera_buffer_callback and exposed
by BufferGuard.is_frame_end is true exactly when the buffer flags include
FRAME_END or TRANSMISSION_FAILED; the two flag bits are merged by one
mask, so each of them alone already yields true and the guard cannot
distinguish them. -/
theorem is_frame_end_spec (flags port buffer pool : Nat) :
    (frame_end_of_flags flags = true ↔
      (flags &&& MMAL_BUFFER_HEADER_FLAG_FRAME_END ≠ 0 ∨
        flags &&& MMAL_BUFFER_HEADER_FLAG_TRANSMISSION_FAILED ≠ 0))
    ∧ (BufferGuard.new port buffer pool (frame_end_of_flags flags)).is_frame_end
        = frame_end_of_flags flags
    ∧ frame_end_of_flags MMAL_BUFFER_HEADER_FLAG_FRAME_END = true
    ∧ frame_end_of_flags MMAL_BUFFER_HEADER_FLAG_TRANSMISSION_FAILED = true := by
  refine ⟨?_, rfl, by decide, by decide⟩
  unfold frame_end_of_flags
  rw [land_lor_distrib_left]
  simp only [decide_eq_true_eq, Nat.pos_iff_ne_zero]
  rw [Ne, lor_eq_zero_iff, not_and_or]

/-- C8: stop_capturing is total and idempotent: it always leaves
is_capturing false, is the identity with no driver call when not
capturing, issues exactly the stop-capture parameter on the active port
and clears the flag when capturing, and a second call after any call is a
no-op. -/
theorem stop_capturing_spec (s : StopState) :
    (stop_capturing s).1.is_capturing = false
    ∧ (s.is_capturing = false → stop_capturing s = (s, []))
    ∧ (s.is_capturing = true →
        stop_capturing s =
          ({ s with is_capturing := false },
            [NativeCall.setCaptureOff
              (if s.is_video then MMAL_CAMERA_VIDEO_PORT else MMAL_CAMERA_CAPTURE_PORT)]))
    ∧ stop_capturing (stop_capturing s).1 = ((stop_capturing s).1, []) := by
  rcases s with ⟨c, v⟩
  cases c <;> cases v <;> decide

/-- C9 (counterexample): a state that is capturing without an encoder but
whose still_port_enabled flag is clear: the teardown still disables the
camera capture port, because that disable is guarded by the was-capturing
flag and not by the port enabled flag, refuting the claim that every
camera port disable is guarded by its enabled flag. -/
theorem seriousCameraDrop_capture_port_without_flag :
    (⟨false, false, false, none, false, false, false, false, none, false,
        false, true, false⟩ : SeriousCameraState).still_port_enabled = false
    ∧ seriousCameraDrop
        ⟨false, false, false, none, false, false, false, false, none, false,
          false, true, false⟩ =
      some [NativeCall.setCaptureOff MMAL_CAMERA_CAPTURE_PORT,
        NativeCall.disableCameraCapturePort, NativeCall.cameraComponentDestroy] := by
  decide

/-- C9 (amended): every encoder unwrap in the teardown is guarded by one
of the encoder flags and every connection unwrap by connection_created
(the camera still or video data port disable is guarded by the
was-capturing flag instead of still_port_enabled), so whenever each set
flag corresponds to a present handle — in particular for a device whose
setup failed before creating the encoder or the connection, where those
flags are clear — the teardown completes without unwrapping an absent
handle. -/
theorem seriousCameraDrop_no_unwrap (s : SeriousCameraState)
    (hE : (s.encoder_output_port_enabled || s.encoder_control_port_enabled ||
        s.encoder_enabled || s.encoder_created) = true → s.encoder.isSome = true)
    (hC : s.connection_created = true → s.connection.isSome = true) :
    (seriousCameraDrop s).isSome = true := by
  cases hEnc : s.encoder with
  | some u =>
      cases hConn : s.connection with
      | some v =>
          simp [seriousCameraDrop, hEnc, hConn, unwrapGuarded_some]
      | none =>
          have hcc : s.connection_created = false := by
            cases h : s.connection_created
            · rfl
            · have := hC h
              rw [hConn] at this
              simp at this
          simp [seriousCameraDrop, hEnc, hConn, hcc, unwrapGuarded_some,
            unwrapGuarded_false]
  | none =>
      have hAll : s.encoder_output_port_enabled = false ∧
          s.encoder_control_port_enabled = false ∧
          s.encoder_enabled = false ∧ s.encoder_created = false := by
        by_contra hcon
        have hor : (s.encoder_output_port_enabled || s.encoder_control_port_enabled ||
            s.encoder_enabled || s.encoder_created) = true := by
          rcases Bool.eq_false_or_eq_true s.encoder_output_port_enabled with h1 | h1 <;>
            rcases Bool.eq_false_or_eq_true s.encoder_control_port_enabled with h2 | h2 <;>
            rcases Bool.eq_false_or_eq_true s.encoder_enabled with h3 | h3 <;>
            rcases Bool.eq_false_or_eq_true s.encoder_created with h4 | h4 <;>
            simp [h1, h2, h3, h4] at hcon ⊢
        have := hE hor
        rw [hEnc] at this
        simp at this
      obtain ⟨h1, h2, h3, h4⟩ := hAll
      cases hConn : s.connection with
      | some v =>
          simp [seriousCameraDrop, hEnc, hConn, h1, h2, h3, h4,
            unwrapGuarded_some, unwrapGuarded_false]
      | none =>
          have hcc : s.connection_created = false := by
            cases h : s.connection_created
            · rfl
            · have := hC h
              rw [hConn] at this
              simp at this
          simp [seriousCameraDrop, hEnc, hConn, h1, h2, h3, h4, hcc,
            unwrapGuarded_false]

/-- Witness for C9 (amended): a device whose setup failed before creating
the encoder or the connection tears down successfully. -/
theorem seriousCameraDrop_no_unwrap_witness :
    (seriousCameraDrop ⟨false, false, false, none, false, false, false, false,
      none, false, false, false, false⟩).isSome = true :=
  seriousCameraDrop_no_unwrap
    ⟨false, false, false, none, false, false, false, false, none, false,
      false, false, false⟩ (by decide) (by decide)

/-- C10: a callback invocation on a port whose userdata is null only
releases the native buffer: no guard is constructed, nothing is sent on
or closed in any channel, no buffer is requeued, and the state is
unchanged. -/
theorem camera_buffer_callback_null_userdata (s : CallbackState)
    (buffer : BufferHeader) (h : s.userdata = none) :
    camera_buffer_callback s buffer = (s, [NativeCall.releaseBuffer buffer.id]) := by
  unfold camera_buffer_callback
  rw [h]

/-- Witness for C10 at a concrete enabled port with a nonempty queue. -/
theorem camera_buffer_callback_null_userdata_witness :
    camera_buffer_callback ⟨2, true, none, [4], false⟩ ⟨9, 128, 4⟩ =
      (⟨2, true, none, [4], false⟩, [NativeCall.releaseBuffer 9]) :=
  camera_buffer_callback_null_userdata ⟨2, true, none, [4], false⟩ ⟨9, 128, 4⟩ rfl

end Rascam
